import Mathlib

/-!
Verification of the `rbdl` RepeaterBook download CLI (`main.go`).

The program is a linear pipeline: parse flags into a `Config`, validate it,
build a query string, perform one HTTP GET, validate that the body is JSON,
then serialize to disk as JSON or CSV with an optional "on-air" filter.

The embedding below follows `main.go` function by function.  JSON documents
are modelled by the inductive `JValue` (numbers as integers — no claim
depends on float formatting); an HTTP response is modelled by its status
code together with the parse of its body (`none` when the bytes are not
valid JSON) and its raw text (used only in error messages).
-/

/-- A JSON value.  Go's `encoding/json` decodes into `interface{}` values;
object fields are kept as an ordered association list. -/
inductive JValue : Type where
  | null : JValue
  | bool : Bool → JValue
  | num : Int → JValue
  | str : String → JValue
  | arr : List JValue → JValue
  | obj : List (String × JValue) → JValue
deriving Repr

/-- A decoded repeater record: Go's `map[string]interface{}`. -/
abbrev Record := List (String × JValue)

/-- First-match association-list lookup (Go map indexing `record[key]`). -/
def lookupKey (k : String) : List (String × JValue) → Option JValue
  | [] => none
  | (k', v) :: rest => if k' = k then some v else lookupKey k rest

/-- The `Config` struct of `main.go`. -/
structure Config where
  Email : String := ""
  Output : String := ""
  Format : String := ""
  OnAir : Bool := false
  Callsign : String := ""
  City : String := ""
  Country : String := ""
  Frequency : String := ""
  Mode : String := ""
  Landmark : String := ""
  StateID : String := ""
  Region : String := ""
  SType : String := ""
deriving Repr

/-- `apiEndpoint` constant from `main.go`. -/
def apiEndpoint : String := "https://www.repeaterbook.com/api/export.php"

/-- `userAgentTemplate` constant from `main.go`. -/
def userAgentTemplate : String := "RepeaterbookDL CLI (beta), %s"

/-- `validateConfig` from `main.go`: the email must be set and the format
must be `json` or `csv`. -/
def validateConfig (c : Config) : Except String Unit :=
  if c.Email = "" then
    .error "email is required (use --email flag or set a RBDL_EMAIL environment variable)"
  else if c.Format ≠ "json" ∧ c.Format ≠ "csv" then
    .error "format must be either 'json' or 'csv'"
  else
    .ok ()

/-- The query parameters built at the top of `fetchRepeaterData`, in the
order the Go code `Add`s them.  Each non-empty search field contributes
exactly one key/value pair, the value taken verbatim from the config. -/
def buildParams (c : Config) : List (String × String) :=
  (if c.Callsign ≠ "" then [("callsign", c.Callsign)] else []) ++
  (if c.City ≠ "" then [("city", c.City)] else []) ++
  (if c.Country ≠ "" then [("country", c.Country)] else []) ++
  (if c.Frequency ≠ "" then [("frequency", c.Frequency)] else []) ++
  (if c.Mode ≠ "" then [("mode", c.Mode)] else []) ++
  (if c.Landmark ≠ "" then [("landmark", c.Landmark)] else []) ++
  (if c.StateID ≠ "" then [("state_id", c.StateID)] else []) ++
  (if c.Region ≠ "" then [("region", c.Region)] else []) ++
  (if c.SType ≠ "" then [("stype", c.SType)] else [])

/-- Uppercase hexadecimal digit, as used by Go's URL escaping. -/
def hexDigit (n : Nat) : Char :=
  if n < 10 then Char.ofNat (48 + n) else Char.ofNat (55 + n)

/-- Whether Go's `url.QueryEscape` leaves the byte unescaped
(alphanumerics and `-_.~`). -/
def isUnreservedChar (c : Char) : Bool :=
  (('A' ≤ c ∧ c ≤ 'Z') ∨ ('a' ≤ c ∧ c ≤ 'z') ∨ ('0' ≤ c ∧ c ≤ '9') ∨
    c = '-' ∨ c = '_' ∨ c = '.' ∨ c = '~' : Prop) |> decide

/-- Escape one character the way `url.QueryEscape` escapes one byte
(modelled at the character level, exact for ASCII input). -/
def escapeChar (c : Char) : String :=
  if isUnreservedChar c then String.singleton c
  else if c = ' ' then "+"
  else "%" ++ String.singleton (hexDigit (c.toNat / 16)) ++
    String.singleton (hexDigit (c.toNat % 16))

/-- Go's `url.QueryEscape`. -/
def queryEscape (s : String) : String :=
  String.join (s.toList.map escapeChar)

/-- Go's `url.Values.Encode`: keys are sorted, then each pair is emitted
as `key=value` with both sides query-escaped, joined by `&`. -/
def urlEncode (params : List (String × String)) : String :=
  String.intercalate "&"
    ((List.insertionSort (fun p q : String × String => p.1 ≤ q.1) params).map
      (fun p => queryEscape p.1 ++ "=" ++ queryEscape p.2))

/-- The `fullURL` assembled in `fetchRepeaterData`: the bare endpoint when
there are no parameters, otherwise endpoint `?` encoded query. -/
def fullURL (c : Config) : String :=
  if buildParams c = [] then apiEndpoint
  else apiEndpoint ++ "?" ++ urlEncode (buildParams c)

/-- The User-Agent value `fmt.Sprintf(userAgentTemplate, config.Email)`:
the template with the email substituted for its single `%s` verb. -/
def userAgent (c : Config) : String :=
  "RepeaterbookDL CLI (beta), " ++ c.Email

/-- The complete header list set on the request: `fetchRepeaterData` sets
only the User-Agent header. -/
def requestHeaders (c : Config) : List (String × String) :=
  [("User-Agent", userAgent c)]

/-- An HTTP response as the fetch step observes it: the status code, the
parse of the body (`none` when the bytes are not valid JSON), and the raw
body text (used only in the non-429 error message). -/
structure HTTPResponse where
  status : Nat
  body : Option JValue
  bodyText : String := ""

/-- The response handling of `fetchRepeaterData` after the single request:
non-200 statuses produce errors (429 a dedicated rate-limit error), and a
200 body is returned unchanged after validating that it parses as JSON. -/
def fetchRepeaterData (c : Config) (resp : HTTPResponse) : Except String JValue :=
  if resp.status ≠ 200 then
    if resp.status = 429 then
      .error "rate limit exceeded (429): too many requests. Wait 10-60 seconds before retrying"
    else
      .error ("API returned status " ++ toString resp.status ++ ": " ++ resp.bodyText)
  else
    match resp.body with
    | none => .error "invalid JSON response"
    | some j => .ok j

/-- Decoding of the response envelope in `parseJSONToRecords`:
`json.Unmarshal` of the body into `struct { Results []map[string]interface{} }`.
The top level must be an object (or JSON `null`, which leaves the zero
value); an absent or `null` `results` field leaves the nil slice; a
`results` array must consist of objects (or `null`s, which decode to the
nil map).  Anything else is an unmarshal error (`none`). -/
def asRecord : JValue → Option Record
  | .obj fields => some fields
  | .null => some []
  | _ => none

/-- See `asRecord`: the decoded `Results` slice, or `none` on an
unmarshal error. -/
def decodeResponse : JValue → Option (List Record)
  | .null => some []
  | .obj fields =>
    match lookupKey "results" fields with
    | none => some []
    | some .null => some []
    | some (.arr xs) => xs.mapM asRecord
    | some _ => none
  | _ => none

/-- The on-air test in `parseJSONToRecords`: the record has an
`"Operational Status"` key holding the string `"On-air"`. -/
def isOnAir (r : Record) : Bool :=
  match lookupKey "Operational Status" r with
  | some (.str s) => s = "On-air"
  | _ => false

/-- `parseJSONToRecords` from `main.go`: unmarshal the envelope, fail when
that fails or when the results slice is empty, then optionally filter for
on-air records. -/
def parseJSONToRecords (j : JValue) (onAirOnly : Bool) : Except String (List Record) :=
  match decodeResponse j with
  | none => .error "unable to parse API response"
  | some results =>
    if results.length = 0 then .error "no results in API response"
    else if onAirOnly then .ok (results.filter isOnAir)
    else .ok results

/-- Keys of a record. -/
def recordKeys (r : Record) : List String := r.map Prod.fst

/-- `fmt.Sprintf("%v", val)` on a decoded JSON value: strings print bare,
booleans as `true`/`false`, `nil` as `<nil>`, slices as space-separated
values in brackets, maps as `map[k:v ...]` with sorted keys.  (Numbers are
modelled as integers.) -/
def render : JValue → String
  | .null => "<nil>"
  | .bool b => if b then "true" else "false"
  | .num n => toString n
  | .str s => s
  | .arr xs => "[" ++ String.intercalate " " (xs.attach.map (fun x => render x.1)) ++ "]"
  | .obj fields =>
    "map[" ++ String.intercalate " "
      ((List.insertionSort (fun p q : String × String => p.1 ≤ q.1)
        (fields.attach.map (fun p => (p.1.1, render p.1.2)))).map
        (fun p => p.1 ++ ":" ++ p.2)) ++ "]"
termination_by v => sizeOf v
decreasing_by
  · have h := List.sizeOf_lt_of_mem x.2
    simp only [JValue.arr.sizeOf_spec]
    omega
  · obtain ⟨⟨a, b⟩, hp⟩ := p
    have h := List.sizeOf_lt_of_mem hp
    simp only [JValue.obj.sizeOf_spec, Prod.mk.sizeOf_spec] at h ⊢
    omega

/-- The header construction of `saveToCSV`: collect every key of every
record into a set, then sort. -/
def csvHeaders (records : List Record) : List String :=
  List.insertionSort (· ≤ ·) ((records.flatMap recordKeys).dedup)

/-- One CSV data row of `saveToCSV`: one cell per header, holding
`fmt.Sprintf("%v", val)` when the key exists with a non-nil value and the
empty string otherwise. -/
def csvRow (headers : List String) (r : Record) : List String :=
  headers.map (fun h =>
    match lookupKey h r with
    | some .null => ""
    | some v => render v
    | none => "")

/-- The rows `saveToCSV` hands to `csv.Writer`: the sorted header row
followed by one data row per record, in order. -/
def csvRows (records : List Record) : List (List String) :=
  csvHeaders records :: records.map (csvRow (csvHeaders records))

/-- `saveToCSV` from `main.go`, modelled as the list of rows written (the
file is created only after the two error checks). -/
def saveToCSV (j : JValue) (onAirOnly : Bool) : Except String (List (List String)) :=
  match parseJSONToRecords j onAirOnly with
  | .error e => .error ("parsing JSON: " ++ e)
  | .ok records =>
    if records.length = 0 then .error "no data to write"
    else .ok (csvRows records)

/-- `saveToJSON` from `main.go`, modelled as the JSON value written.  With
the on-air filter it rebuilds `{"count": len(records), "results": records}`
(Go marshals map keys in sorted order, so `count` precedes `results`);
without it the already-validated body is re-serialized unchanged. -/
def saveToJSON (j : JValue) (onAirOnly : Bool) : Except String JValue :=
  if onAirOnly then
    match parseJSONToRecords j true with
    | .error e => .error ("parsing JSON: " ++ e)
    | .ok records =>
      .ok (.obj [("count", .num records.length), ("results", .arr (records.map JValue.obj))])
  else
    .ok j

/-- What gets written to disk: a JSON document or CSV rows. -/
inductive FileOutput : Type where
  | json : JValue → FileOutput
  | csv : List (List String) → FileOutput

/-- `saveToFile` from `main.go`: dispatch on the configured format. -/
def saveToFile (c : Config) (j : JValue) : Except String FileOutput :=
  if c.Format = "csv" then (saveToCSV j c.OnAir).map .csv
  else (saveToJSON j c.OnAir).map .json

/-- Externally visible events of a run: issuing the HTTP request and
writing the output file. -/
inductive Event : Type where
  | request : String → String → Event
  | write : FileOutput → Event

/-- `main` from `main.go` as a trace semantics: validate the config, fetch
once, save once.  The first component lists the request (URL and
User-Agent) and file-write events in order; the second is `.error` exactly
when `main` prints an error and exits with status 1. -/
def runMain (c : Config) (resp : HTTPResponse) : List Event × Except String FileOutput :=
  match validateConfig c with
  | .error e => ([], .error e)
  | .ok _ =>
    match fetchRepeaterData c resp with
    | .error e => ([.request (fullURL c) (userAgent c)], .error e)
    | .ok j =>
      match saveToFile c j with
      | .error e => ([.request (fullURL c) (userAgent c)], .error e)
      | .ok out => ([.request (fullURL c) (userAgent c), .write out], .ok out)

/-! ### Helper lemmas -/

theorem lookupKey_isSome_iff (k : String) (r : Record) :
    (lookupKey k r).isSome ↔ k ∈ recordKeys r := by
  induction r with
  | nil => simp [lookupKey, recordKeys]
  | cons p rest ih =>
    obtain ⟨k', v⟩ := p
    by_cases h : k' = k
    · subst h
      simp [lookupKey, recordKeys]
    · simp only [lookupKey, if_neg h, recordKeys, List.map_cons, List.mem_cons]
      rw [ih]
      show k ∈ recordKeys rest ↔ _
      simp only [recordKeys]
      constructor
      · exact fun hm => Or.inr hm
      · rintro (rfl | hm)
        · exact absurd rfl h
        · exact hm

theorem fetchRepeaterData_ok_iff (c : Config) (resp : HTTPResponse) (j : JValue) :
    fetchRepeaterData c resp = .ok j ↔ resp.status = 200 ∧ resp.body = some j := by
  unfold fetchRepeaterData
  by_cases h : resp.status ≠ 200
  · by_cases h429 : resp.status = 429 <;> simp [h, h429]
  · push_neg at h
    rcases hb : resp.body with _ | v <;> simp [h, hb]

theorem isOnAir_iff (r : Record) :
    isOnAir r = true ↔ lookupKey "Operational Status" r = some (.str "On-air") := by
  unfold isOnAir
  rcases hl : lookupKey "Operational Status" r with _ | v
  · simp
  · cases v <;> simp

/-! ### Claim theorems -/

/-- C7: the only authentication is the static User-Agent header — every
request carries exactly one header, `User-Agent`, whose value is the fixed
template `"RepeaterbookDL CLI (beta), %s"` with the configured email
substituted; no other header, token, or credential is attached. -/
theorem static_header_authentication (c : Config) :
    requestHeaders c = [("User-Agent", "RepeaterbookDL CLI (beta), " ++ c.Email)] ∧
    (requestHeaders c).length = 1 ∧
    userAgentTemplate = "RepeaterbookDL CLI (beta), %s" :=
  ⟨rfl, rfl, rfl⟩

/-- C5: on any non-200 status the run makes exactly one request, writes no
file and exits with an error (so no retry ever happens), and on status 429
the error is the dedicated rate-limit message. -/
theorem rate_limit_reported_no_retry (c : Config) (resp : HTTPResponse)
    (hval : validateConfig c = .ok ()) (hstatus : resp.status ≠ 200) :
    (runMain c resp).1 = [Event.request (fullURL c) (userAgent c)] ∧
    (∃ e, (runMain c resp).2 = Except.error e) ∧
    (∀ out, Event.write out ∉ (runMain c resp).1) ∧
    (resp.status = 429 →
      (runMain c resp).2 = Except.error
        "rate limit exceeded (429): too many requests. Wait 10-60 seconds before retrying") := by
  have hfetch : ∃ e, fetchRepeaterData c resp = .error e ∧
      (resp.status = 429 →
        e = "rate limit exceeded (429): too many requests. Wait 10-60 seconds before retrying") := by
    unfold fetchRepeaterData
    rw [if_pos hstatus]
    by_cases h429 : resp.status = 429
    · rw [if_pos h429]
      exact ⟨_, rfl, fun _ => rfl⟩
    · rw [if_neg h429]
      exact ⟨_, rfl, fun h => absurd h h429⟩
  obtain ⟨e, he, h429e⟩ := hfetch
  refine ⟨?_, ⟨e, ?_⟩, ?_, fun h => ?_⟩ <;>
    simp only [runMain, hval, he]
  · intro out hmem
    simp at hmem
  · rw [h429e h]

/-- C6: every run is linear — either the config is rejected before any
request, or exactly one request is made and the run errors out, or exactly
one request is followed by exactly one file write; a write happens only
after the fetch succeeded on a status-200 response whose body was valid
JSON. -/
theorem single_linear_path (c : Config) (resp : HTTPResponse) :
    (∃ e e', runMain c resp = ([], .error e) ∧ validateConfig c = .error e') ∨
    (∃ e, runMain c resp = ([.request (fullURL c) (userAgent c)], .error e)) ∨
    (∃ j out, resp.status = 200 ∧ resp.body = some j ∧ saveToFile c j = .ok out ∧
      runMain c resp = ([.request (fullURL c) (userAgent c), .write out], .ok out)) := by
  rcases hv : validateConfig c with e | u
  · refine Or.inl ⟨e, e, ?_, rfl⟩
    simp [runMain, hv]
  · rcases hf : fetchRepeaterData c resp with e | j
    · exact Or.inr (Or.inl ⟨e, by simp [runMain, hv, hf]⟩)
    · obtain ⟨h200, hbody⟩ := (fetchRepeaterData_ok_iff c resp j).1 hf
      rcases hs : saveToFile c j with e | out
      · exact Or.inr (Or.inl ⟨e, by simp [runMain, hv, hf, hs]⟩)
      · exact Or.inr (Or.inr ⟨j, out, h200, hbody, hs, by simp [runMain, hv, hf, hs]⟩)

/-- C2: with the on-air filter enabled, the record list produced for
serialization is exactly the order-preserving subsequence of the decoded
results, keeping a record if and only if it carries an
`"Operational Status"` key whose value is the string `"On-air"`. -/
theorem onAir_filter_exact (j : JValue) (results : List Record)
    (hdec : decodeResponse j = some results) (hne : results ≠ []) :
    parseJSONToRecords j true = .ok (results.filter isOnAir) ∧
    (results.filter isOnAir).Sublist results ∧
    (∀ r, r ∈ results.filter isOnAir ↔
      r ∈ results ∧ lookupKey "Operational Status" r = some (.str "On-air")) := by
  have hlen : ¬(results.length = 0) := by
    simpa [List.length_eq_zero] using hne
  refine ⟨?_, List.filter_sublist _, fun r => ?_⟩
  · simp [parseJSONToRecords, hdec, hlen]
  · rw [List.mem_filter, isOnAir_iff]

/-- C9: with the on-air filter enabled and JSON output, the value written
to disk is exactly `{"count": n, "results": rs}` where `n` is the length
of the filtered record list `rs`. -/
theorem json_output_count_consistent (c : Config) (j : JValue) (records : List Record)
    (hfmt : c.Format = "json") (hair : c.OnAir = true)
    (hp : parseJSONToRecords j true = .ok records) :
    saveToFile c j = .ok (.json (.obj
      [("count", .num records.length), ("results", .arr (records.map JValue.obj))])) := by
  unfold saveToFile
  rw [hfmt, if_neg (by decide), hair]
  simp [saveToJSON, hp, Except.map]

/-- C10: record normalization fails exactly when the envelope does not
unmarshal or the results slice is absent/empty; when the slice is
non-empty but the on-air filter drops every record, normalization
succeeds with the empty list, the JSON path writes count 0 with empty
results, and the CSV path fails with "no data to write". -/
theorem parse_failure_modes :
    (∀ (j : JValue) (b : Bool), (∃ e, parseJSONToRecords j b = .error e) ↔
      (decodeResponse j = none ∨ decodeResponse j = some [])) ∧
    (∀ (j : JValue) (results : List Record), decodeResponse j = some results →
      results ≠ [] → results.filter isOnAir = [] →
      parseJSONToRecords j true = .ok [] ∧
      saveToJSON j true = .ok (.obj [("count", .num 0), ("results", .arr [])]) ∧
      saveToCSV j true = .error "no data to write") := by
  constructor
  · intro j b
    rcases hd : decodeResponse j with _ | rs
    · simp [parseJSONToRecords, hd]
    · rcases rs with _ | ⟨r, rs'⟩
      · simp [parseJSONToRecords, hd]
      · simp only [parseJSONToRecords, hd]
        cases b <;> simp
  · intro j results hdec hne hfilter
    have hlen : ¬(results.length = 0) := by
      simpa [List.length_eq_zero] using hne
    refine ⟨?_, ?_, ?_⟩
    · simp [parseJSONToRecords, hdec, hlen, hfilter]
    · simp [saveToJSON, parseJSONToRecords, hdec, hlen, hfilter]
    · simp [saveToCSV, parseJSONToRecords, hdec, hlen, hfilter]

theorem mem_keys_ite {k name v : String} {cond : Prop} [Decidable cond] :
    (k ∈ ((if cond then [(name, v)] else []) : List (String × String)).map Prod.fst) ↔
      (cond ∧ k = name) := by
  split <;> rename_i h <;> simp [h]

theorem buildParams_keys (c : Config) (k : String) :
    k ∈ (buildParams c).map Prod.fst ↔
      ((c.Callsign ≠ "" ∧ k = "callsign") ∨ (c.City ≠ "" ∧ k = "city") ∨
        (c.Country ≠ "" ∧ k = "country") ∨ (c.Frequency ≠ "" ∧ k = "frequency") ∨
        (c.Mode ≠ "" ∧ k = "mode") ∨ (c.Landmark ≠ "" ∧ k = "landmark") ∨
        (c.StateID ≠ "" ∧ k = "state_id") ∨ (c.Region ≠ "" ∧ k = "region") ∨
        (c.SType ≠ "" ∧ k = "stype")) := by
  simp only [buildParams, List.map_append, List.mem_append, mem_keys_ite, or_assoc]

/-- C8: the query string has a key for a search field exactly when the
field is non-empty; `StateID` maps to `state_id` and every other field to
its lowercase name; only these nine keys ever appear; and with all nine
fields empty the URL is the bare endpoint, which contains no `?`. -/
theorem query_string_fields (c : Config) :
    ("callsign" ∈ (buildParams c).map Prod.fst ↔ c.Callsign ≠ "") ∧
    ("city" ∈ (buildParams c).map Prod.fst ↔ c.City ≠ "") ∧
    ("country" ∈ (buildParams c).map Prod.fst ↔ c.Country ≠ "") ∧
    ("frequency" ∈ (buildParams c).map Prod.fst ↔ c.Frequency ≠ "") ∧
    ("mode" ∈ (buildParams c).map Prod.fst ↔ c.Mode ≠ "") ∧
    ("landmark" ∈ (buildParams c).map Prod.fst ↔ c.Landmark ≠ "") ∧
    ("state_id" ∈ (buildParams c).map Prod.fst ↔ c.StateID ≠ "") ∧
    ("region" ∈ (buildParams c).map Prod.fst ↔ c.Region ≠ "") ∧
    ("stype" ∈ (buildParams c).map Prod.fst ↔ c.SType ≠ "") ∧
    (∀ k ∈ (buildParams c).map Prod.fst,
      k ∈ ["callsign", "city", "country", "frequency", "mode", "landmark",
        "state_id", "region", "stype"]) ∧
    (buildParams c ≠ [] → fullURL c = apiEndpoint ++ "?" ++ urlEncode (buildParams c)) ∧
    (c.Callsign = "" → c.City = "" → c.Country = "" → c.Frequency = "" → c.Mode = "" →
      c.Landmark = "" → c.StateID = "" → c.Region = "" → c.SType = "" →
      fullURL c = apiEndpoint) ∧
    (∀ ch ∈ apiEndpoint.toList, ch ≠ '?') := by
  refine ⟨?_, ?_, ?_, ?_, ?_, ?_, ?_, ?_, ?_, ?_, ?_, ?_, ?_⟩
  · rw [buildParams_keys]; simp
  · rw [buildParams_keys]; simp
  · rw [buildParams_keys]; simp
  · rw [buildParams_keys]; simp
  · rw [buildParams_keys]; simp
  · rw [buildParams_keys]; simp
  · rw [buildParams_keys]; simp
  · rw [buildParams_keys]; simp
  · rw [buildParams_keys]; simp
  · intro k hk
    rw [buildParams_keys] at hk
    rcases hk with ⟨_, rfl⟩ | ⟨_, rfl⟩ | ⟨_, rfl⟩ | ⟨_, rfl⟩ | ⟨_, rfl⟩ | ⟨_, rfl⟩ |
      ⟨_, rfl⟩ | ⟨_, rfl⟩ | ⟨_, rfl⟩ <;> simp
  · intro h
    rw [fullURL, if_neg h]
  · intro h1 h2 h3 h4 h5 h6 h7 h8 h9
    have hbp : buildParams c = [] := by
      simp [buildParams, h1, h2, h3, h4, h5, h6, h7, h8, h9]
    rw [fullURL, if_pos hbp]
  · decide

/-- C4: wildcard-capable search values are stored verbatim in the query
parameters and reach the URL subject only to query escaping; the
serialization step depends only on the format and on-air settings, so the
records written are never filtered locally against these patterns. -/
theorem wildcard_passthrough (c c' : Config) (j : JValue)
    (hfmt : c.Format = c'.Format) (hair : c.OnAir = c'.OnAir) :
    (c.Callsign ≠ "" → ("callsign", c.Callsign) ∈ buildParams c) ∧
    (c.City ≠ "" → ("city", c.City) ∈ buildParams c) ∧
    (c.Country ≠ "" → ("country", c.Country) ∈ buildParams c) ∧
    (c.Landmark ≠ "" → ("landmark", c.Landmark) ∈ buildParams c) ∧
    (buildParams c ≠ [] →
      fullURL c = apiEndpoint ++ "?" ++ String.intercalate "&"
        ((List.insertionSort (fun p q : String × String => p.1 ≤ q.1) (buildParams c)).map
          (fun p => queryEscape p.1 ++ "=" ++ queryEscape p.2))) ∧
    queryEscape "W%" = "W%25" ∧
    saveToFile c j = saveToFile c' j := by
  refine ⟨?_, ?_, ?_, ?_, ?_, ?_, ?_⟩
  · intro h
    simp [buildParams, h]
  · intro h
    simp [buildParams, h]
  · intro h
    simp [buildParams, h]
  · intro h
    simp [buildParams, h]
  · intro h
    rw [fullURL, if_neg h]
    rfl
  · rfl
  · unfold saveToFile
    rw [hfmt, hair]

theorem csvHeaders_sorted (records : List Record) :
    List.Sorted (· ≤ ·) (csvHeaders records) :=
  List.sorted_insertionSort _ _

theorem csvHeaders_nodup (records : List Record) :
    (csvHeaders records).Nodup :=
  ((List.perm_insertionSort _ _).nodup_iff).2 (List.nodup_dedup _)

theorem mem_csvHeaders (records : List Record) (k : String) :
    k ∈ csvHeaders records ↔ ∃ r ∈ records, (lookupKey k r).isSome := by
  unfold csvHeaders
  rw [List.mem_insertionSort, List.mem_dedup, List.mem_flatMap]
  constructor
  · rintro ⟨r, hr, hk⟩
    exact ⟨r, hr, (lookupKey_isSome_iff k r).2 hk⟩
  · rintro ⟨r, hr, hk⟩
    exact ⟨r, hr, (lookupKey_isSome_iff k r).1 hk⟩

/-- C1: for a non-empty record list, the CSV output is the header row —
the sorted, duplicate-free union of all keys occurring in any record —
followed by one row per record in the original order; each row pairs one
cell with each header, the cell holding the rendered value when the key
is present and non-nil and the empty string otherwise. -/
theorem csv_serialization_spec (records : List Record) (hne : records ≠ []) :
    List.Sorted (· ≤ ·) (csvHeaders records) ∧
    (csvHeaders records).Nodup ∧
    (∀ k, k ∈ csvHeaders records ↔ ∃ r ∈ records, (lookupKey k r).isSome) ∧
    csvRows records = csvHeaders records :: records.map (csvRow (csvHeaders records)) ∧
    (∀ r, (csvRow (csvHeaders records) r).length = (csvHeaders records).length) ∧
    (∀ r ∈ records, List.Forall₂ (fun k cell =>
        (∀ v, lookupKey k r = some v → v ≠ JValue.null → cell = render v) ∧
        ((lookupKey k r = none ∨ lookupKey k r = some JValue.null) → cell = ""))
      (csvHeaders records) (csvRow (csvHeaders records) r)) ∧
    (∀ (j : JValue) (b : Bool), parseJSONToRecords j b = .ok records →
      saveToCSV j b = .ok (csvRows records)) := by
  have hlen : ¬(records.length = 0) := by
    simpa [List.length_eq_zero] using hne
  refine ⟨csvHeaders_sorted records, csvHeaders_nodup records, mem_csvHeaders records,
    rfl, fun r => by simp [csvRow], fun r hr => ?_, fun j b hp => ?_⟩
  · unfold csvRow
    rw [List.forall₂_map_right_iff, List.forall₂_same]
    intro k hk
    constructor
    · intro v hv hnull
      rw [hv]
      cases v with
      | null => exact absurd rfl hnull
      | bool b => rfl
      | num n => rfl
      | str s => rfl
      | arr xs => rfl
      | obj fields => rfl
    · rintro (hl | hl) <;> rw [hl]
  · simp [saveToCSV, hp, hlen]

/-- C3 counterexample: with a valid configuration selecting CSV output, a
status-200 response whose body is perfectly valid JSON (`{"count": 0,
"results": []}`) still makes the run fail before writing anything — a
shape requirement beyond "is this valid JSON" is imposed on the data. -/
theorem schema_validation_counterexample :
    validateConfig { Email := "user@example.com", Format := "csv" } = .ok () ∧
    (runMain { Email := "user@example.com", Format := "csv" }
        { status := 200, body := some (.obj [("count", .num 0), ("results", .arr [])]) }).2 =
      .error "parsing JSON: no results in API response" ∧
    (∀ out, Event.write out ∉
      (runMain { Email := "user@example.com", Format := "csv" }
        { status := 200, body := some (.obj [("count", .num 0), ("results", .arr [])]) }).1) := by
  refine ⟨rfl, rfl, ?_⟩
  intro out hmem
  have h : (runMain { Email := "user@example.com", Format := "csv" }
      { status := 200, body := some (.obj [("count", .num 0), ("results", .arr [])]) }).1 =
      [Event.request apiEndpoint "RepeaterbookDL CLI (beta), user@example.com"] := rfl
  rw [h] at hmem
  simp at hmem

/-- C3 (amended): the fetch step passes a status-200 body through
unchanged exactly when it parses as JSON and fails exactly when it does
not; the plain JSON output path (no on-air filter) imposes no further
shape requirement, but the CSV path additionally fails whenever the
envelope does not unmarshal or its results slice is empty. -/
theorem json_validation_only (c : Config) (resp : HTTPResponse) (j : JValue)
    (h200 : resp.status = 200) (hfmt : c.Format = "json") (hair : c.OnAir = false) :
    (∀ v, fetchRepeaterData c resp = .ok v ↔ resp.body = some v) ∧
    ((∃ e, fetchRepeaterData c resp = .error e) ↔ resp.body = none) ∧
    saveToFile c j = .ok (.json j) ∧
    (∀ (c' : Config) (j' : JValue), c'.Format = "csv" →
      (decodeResponse j' = none ∨ decodeResponse j' = some []) →
      ∃ e, saveToFile c' j' = .error e) := by
  refine ⟨fun v => ?_, ?_, ?_, ?_⟩
  · rw [fetchRepeaterData_ok_iff]
    simp [h200]
  · rcases hb : resp.body with _ | v <;> simp [fetchRepeaterData, h200, hb]
  · unfold saveToFile
    rw [hfmt, if_neg (by decide), hair]
    simp [saveToJSON, Except.map]
  · intro c' j' hfmt' hdec
    have hp : parseJSONToRecords j' c'.OnAir = .error "unable to parse API response" ∨
        parseJSONToRecords j' c'.OnAir = .error "no results in API response" := by
      rcases hdec with h | h
      · exact Or.inl (by simp [parseJSONToRecords, h])
      · exact Or.inr (by simp [parseJSONToRecords, h])
    unfold saveToFile
    rw [hfmt', if_pos rfl]
    rcases hp with h | h
    · exact ⟨"parsing JSON: " ++ "unable to parse API response",
        by simp [saveToCSV, h, Except.map]⟩
    · exact ⟨"parsing JSON: " ++ "no results in API response",
        by simp [saveToCSV, h, Except.map]⟩

/-! ### Concrete test fixtures and witnesses -/

def sampleRecords : List Record := [[("b", .str "x")], [("a", .null), ("c", .num 5)]]

def sampleResults : List Record :=
  [[("Operational Status", .str "On-air")], [("Operational Status", .str "Off-air")]]

def sampleResponse : JValue :=
  .obj [("count", .num 2), ("results", .arr (sampleResults.map .obj))]

def cfgPlain : Config := { Email := "user@example.com", Format := "json" }

def cfgOnAir : Config := { Email := "user@example.com", Format := "json", OnAir := true }

def cfgWildcard : Config := { Email := "user@example.com", Format := "json", Callsign := "W%" }

theorem csv_serialization_spec_witness :
    List.Sorted (· ≤ ·) (csvHeaders sampleRecords) ∧
    (csvHeaders sampleRecords).Nodup ∧
    csvRows sampleRecords =
      csvHeaders sampleRecords :: sampleRecords.map (csvRow (csvHeaders sampleRecords)) :=
  ⟨(csv_serialization_spec sampleRecords (by simp [sampleRecords])).1,
   (csv_serialization_spec sampleRecords (by simp [sampleRecords])).2.1,
   (csv_serialization_spec sampleRecords (by simp [sampleRecords])).2.2.2.1⟩

theorem onAir_filter_exact_witness :
    parseJSONToRecords sampleResponse true = .ok (sampleResults.filter isOnAir) ∧
    (sampleResults.filter isOnAir).Sublist sampleResults :=
  ⟨(onAir_filter_exact sampleResponse sampleResults rfl (by simp [sampleResults])).1,
   (onAir_filter_exact sampleResponse sampleResults rfl (by simp [sampleResults])).2.1⟩

theorem json_validation_only_witness :
    saveToFile cfgPlain (.obj [("count", .num 1)]) =
      .ok (.json (.obj [("count", .num 1)])) :=
  (json_validation_only cfgPlain { status := 200, body := some .null }
    (.obj [("count", .num 1)]) rfl rfl rfl).2.2.1

theorem wildcard_passthrough_witness :
    ("callsign", "W%") ∈ buildParams cfgWildcard ∧
    saveToFile cfgWildcard JValue.null = saveToFile cfgPlain JValue.null :=
  ⟨(wildcard_passthrough cfgWildcard cfgPlain JValue.null rfl rfl).1 (by decide),
   (wildcard_passthrough cfgWildcard cfgPlain JValue.null rfl rfl).2.2.2.2.2.2⟩

theorem rate_limit_reported_no_retry_witness :
    (runMain cfgPlain { status := 429, body := none }).1 =
      [Event.request (fullURL cfgPlain) (userAgent cfgPlain)] ∧
    (runMain cfgPlain { status := 429, body := none }).2 = .error
      "rate limit exceeded (429): too many requests. Wait 10-60 seconds before retrying" :=
  ⟨(rate_limit_reported_no_retry cfgPlain { status := 429, body := none } rfl (by decide)).1,
   (rate_limit_reported_no_retry cfgPlain { status := 429, body := none } rfl
      (by decide)).2.2.2 rfl⟩

theorem json_output_count_consistent_witness :
    saveToFile cfgOnAir sampleResponse = .ok (.json (.obj
      [("count", .num 1),
       ("results", .arr [JValue.obj [("Operational Status", .str "On-air")]])])) :=
  json_output_count_consistent cfgOnAir sampleResponse
    [[("Operational Status", .str "On-air")]] rfl rfl rfl
